import Mathlib

/-!
Verification of the prediction-context orchestration pipeline of
`streamlit_app.py` (NBA player performance prediction demo).

The embedding models:
* NetworkX (sub)graphs as lists of attributed nodes plus labelled edges;
* node-attribute mutation through an explicit store keyed by a graph
  reference (`0` = the caller's canonical subgraph, `1` = the working copy
  created by `subgraph.copy()` at line 56), so that copy isolation is a
  real statement about writes to one reference not affecting the other;
* `visualize_subgraph` (lines 42-109) as a function from a graph and a
  failure schedule to the observable outcome: the emitted effects
  (warnings, log entries, user-facing errors, rendering steps), the set of
  temporary files still on disk when the call returns, the final
  attribute store, and the styled PyVis nodes;
* the `main` predict flow (lines 129-203) as a function from the data
  environment and the try-block outcome to the list of emitted effects;
* the `context_info` construction (lines 176-188) as `mkContextInfo`.
-/

set_option autoImplicit false

namespace NbaApp

/-- Attributes carried by a graph node: the optional display `name`, the
optional `type` driving the styling table, and the optional `label`
written by the renderer's labelling loop. -/
structure NodeData where
  name : Option String
  type : Option String
  label : Option String
  deriving Repr, DecidableEq

/-- A NetworkX-style graph: attributed nodes (id paired with its attribute
dict) and directed edges `(source, target, relation)`. -/
structure Graph where
  nodes : List (String × NodeData)
  edges : List (String × String × String)
  deriving Repr, DecidableEq

/-- The node identifiers of a graph. -/
def Graph.nodeIds (g : Graph) : List String :=
  g.nodes.map Prod.fst

/-- Modelled from the spec: `extract_context_subgraph` (src/kg_utils.py,
whose body is not under src/) returns a NetworkX graph, a "subset of nodes
and edges of KnowledgeGraph"; a NetworkX graph maintains the invariant
that both endpoints of every edge are nodes of the graph. -/
def Graph.wf (g : Graph) : Prop :=
  ∀ e ∈ g.edges, e.1 ∈ g.nodeIds ∧ e.2.1 ∈ g.nodeIds

instance (g : Graph) : Decidable g.wf := by
  unfold Graph.wf; infer_instance

/-- The node-attribute store: entries `(graphRef, nodeId, attrs)`. Ref `0`
is the canonical subgraph passed by the caller, ref `1` the working copy
made at line 56. NetworkX `Graph.copy()` gives the copy fresh attribute
dicts, so a write through one reference never shows through the other. -/
abbrev Store := List (Nat × String × NodeData)

/-- First-match lookup of a node's attributes under a graph reference. -/
def lookupNd : Store → Nat → String → Option NodeData
  | [], _, _ => none
  | (r, n, d) :: rest, r', n' =>
      if r = r' ∧ n = n' then some d else lookupNd rest r' n'

/-- The store holding the caller's graph before `visualize_subgraph` runs
(all entries under the canonical reference `0`). -/
def initStore (g : Graph) : Store :=
  g.nodes.map (fun p => (0, p.1, p.2))

/-- One iteration of the labelling loop (lines 59-64) on the working copy
(ref `1`): set the node's `label` attribute to its `name` attribute when
present, else to the node id itself. -/
def setLabelAttr (s : Store) (node : String) : Store :=
  s.map (fun e =>
    if e.1 = 1 ∧ e.2.1 = node then
      (e.1, e.2.1, { e.2.2 with label := some (e.2.2.name.getD e.2.1) })
    else e)

/-- The labelling loop of lines 59-64, iterating over the copy's nodes. -/
def labelLoop (s : Store) : List String → Store
  | [] => s
  | n :: rest => labelLoop (setLabelAttr s n) rest

/-- A PyVis node as produced by `net.from_nx` and mutated through
`net.get_node(node)['color'] / ['shape']`. -/
structure VisNode where
  id : String
  label : Option String
  color : Option String
  shape : Option String
  deriving Repr, DecidableEq

/-- The type-comparison chain of lines 71-90: assign the (color, shape)
pair for the six known node types; any other (or missing) `type` leaves
the PyVis defaults untouched. -/
def applyStyle (t : Option String) (vn : VisNode) : VisNode :=
  if t = some "Player" then { vn with color := some "blue", shape := some "ellipse" }
  else if t = some "Team" then { vn with color := some "green", shape := some "box" }
  else if t = some "Game" then { vn with color := some "red", shape := some "diamond" }
  else if t = some "Opponent_Team" then { vn with color := some "purple", shape := some "dot" }
  else if t = some "Home_Away" then { vn with color := some "orange", shape := some "triangle" }
  else if t = some "Performance" then { vn with color := some "yellow", shape := some "star" }
  else vn

/-- Observable effects of `visualize_subgraph`. -/
inductive Effect where
  | warn (msg : String)
  | copyGraph
  | labelNodes
  | initNet
  | styleNodes
  | createTemp (path : String)
  | saveGraph (path : String)
  | readFile (path : String)
  | removeFile (path : String)
  | renderHtml
  | logError (msg : String)
  | stError (msg : String)
  deriving Repr, DecidableEq

/-- Where, if anywhere, the body of the `try` at lines 54-105 raises:
`atSave` = `net.save_graph` raises after the temp file was created,
`atRead` = reading the temp file back raises, `atRender` =
`components.html` raises after the temp file was already removed. -/
inductive FailPoint where
  | noFail
  | atSave
  | atRead
  | atRender
  deriving Repr, DecidableEq

/-- Outcome of a `visualize_subgraph` call: the emitted effects, the
temporary files still existing when the call returns, the final
node-attribute store, and the styled PyVis nodes. -/
structure VisResult where
  effects : List Effect
  tempFiles : List String
  store : Store
  visNodes : List VisNode
  deriving Repr, DecidableEq

/-- The path of the serialized-HTML temporary file of lines 93-95. -/
def tmpPath : String := "tmpfile.html"

/-- The store right after `subgraph_copy = subgraph.copy()` (line 56):
the canonical entries under ref `0` plus fresh copies under ref `1`. -/
def copyStore (g : Graph) : Store :=
  initStore g ++ g.nodes.map (fun p => (1, p.1, p.2))

/-- The store after the labelling loop of lines 59-64 ran on the copy. -/
def finalStore (g : Graph) : Store :=
  labelLoop (copyStore g) g.nodeIds

/-- `net.from_nx(subgraph_copy)` (line 68): one PyVis node per graph
node, carrying the label attribute set by the labelling loop. -/
def mkVisNodes (g : Graph) : List VisNode :=
  g.nodeIds.map (fun n =>
    { id := n, label := (lookupNd (finalStore g) 1 n).bind NodeData.label,
      color := none, shape := none })

/-- The styling loop of lines 71-90 applied to the PyVis nodes. -/
def styledNodes (g : Graph) : List VisNode :=
  (mkVisNodes g).map (fun vn =>
    applyStyle ((lookupNd (finalStore g) 1 vn.id).bind NodeData.type) vn)

/-- `visualize_subgraph` (lines 42-109). Empty subgraph: warn and return
(lines 50-52). Otherwise: copy the subgraph (line 56), run the labelling
loop on the copy (lines 59-64), build and style the PyVis nodes (lines
67-90), write the temp file, read it back, remove it, and render (lines
93-105); any exception is caught at line 106, logged and converted to a
user-facing error (lines 108-109) — with no cleanup of the temp file. -/
def visualize_subgraph (g : Graph) (fail : FailPoint) : VisResult :=
  if g.nodes.length = 0 then
    { effects := [.warn "No subgraph available to display."],
      tempFiles := [], store := initStore g, visNodes := [] }
  else
    let pre : List Effect :=
      [.copyGraph, .labelNodes, .initNet, .styleNodes, .createTemp tmpPath]
    match fail with
    | .atSave =>
        { effects := pre ++
            [.logError "Error visualizing subgraph: save_graph failed",
             .stError "Error visualizing the Knowledge Graph subgraph."],
          tempFiles := [tmpPath], store := finalStore g,
          visNodes := styledNodes g }
    | .atRead =>
        { effects := pre ++
            [.saveGraph tmpPath,
             .logError "Error visualizing subgraph: reading temp file failed",
             .stError "Error visualizing the Knowledge Graph subgraph."],
          tempFiles := [tmpPath], store := finalStore g,
          visNodes := styledNodes g }
    | .atRender =>
        { effects := pre ++
            [.saveGraph tmpPath, .readFile tmpPath, .removeFile tmpPath,
             .logError "Error visualizing subgraph: components failed",
             .stError "Error visualizing the Knowledge Graph subgraph."],
          tempFiles := [], store := finalStore g,
          visNodes := styledNodes g }
    | .noFail =>
        { effects := pre ++
            [.saveGraph tmpPath, .readFile tmpPath, .removeFile tmpPath,
             .renderHtml],
          tempFiles := [], store := finalStore g,
          visNodes := styledNodes g }

/-- One `{source, target, relation}` triple of the `Relationships`
sequence (lines 180-187). -/
structure Relationship where
  source : String
  target : String
  relation : String
  deriving Repr, DecidableEq

/-- The `context_info` structure built at lines 176-188. -/
structure ContextInfo where
  player : String
  player_team : String
  opponent : String
  relationships : List Relationship
  deriving Repr, DecidableEq

/-- Lines 176-188: `Player_Team` is
`player_team_abbr if player_team_abbr else 'Unknown'` (Python truthiness:
`None` and the empty string both select the `'Unknown'` sentinel), and
`Relationships` enumerates `subgraph.edges(data=True)`. -/
def mkContextInfo (playerName : String) (playerTeamAbbr : Option String)
    (opponent : String) (subgraph : Graph) : ContextInfo :=
  { player := playerName,
    player_team :=
      match playerTeamAbbr with
      | none => "Unknown"
      | some s => if s = "" then "Unknown" else s,
    opponent := opponent,
    relationships :=
      subgraph.edges.map (fun e =>
        { source := e.1, target := e.2.1, relation := e.2.2 }) }

/-- Exact value of a numeric pipeline output, as the fraction
`num / den` (`den` positive at every use site). The scenario value 28.4
is `⟨284, 10⟩`. -/
structure RatVal where
  num : ℤ
  den : ℕ
  deriving Repr, DecidableEq

/-- CPython `format(x, '.2f')` for the nonnegative values this app
formats: round the value times 100 to the nearest integer (ties to even,
as CPython does) and print it with two digits after the decimal point. -/
def format2 (v : RatVal) : String :=
  let d : ℤ := (v.den : ℤ)
  let a := 100 * v.num
  let f := Int.fdiv a d
  let r2 := 2 * (a - f * d)
  let n := if r2 < d then f else if d < r2 then f + 1
           else if f % 2 = 0 then f else f + 1
  let whole := n / 100
  let frac := (n % 100).natAbs
  toString whole ++ "." ++ (if frac < 10 then "0" else "") ++ toString frac

/-- Drop every `**` bold marker: what Streamlit's markdown rendering of
`st.write` displays in place of the raw f-string. -/
def stripBoldAux : List Char → List Char
  | [] => []
  | '*' :: '*' :: rest => stripBoldAux rest
  | c :: rest => c :: stripBoldAux rest

/-- The text displayed for a markdown string passed to `st.write`. -/
def stripBold (s : String) : String :=
  ⟨stripBoldAux s.data⟩

/-- Observable effects of the `main` predict flow (lines 129-203). -/
inductive MEffect where
  | stError (msg : String)
  | stWrite (msg : String)
  | logError (msg : String)
  | prepareInput
  | predictRegression
  | predictClassification
  | extractSubgraph
  | generateExplanation
  | renderSubgraph
  deriving Repr, DecidableEq

/-- Which statement of the `try` block at lines 154-196 raises. -/
inductive RaiseStage where
  | atPrepare
  | atRegression
  | atClassification
  deriving Repr, DecidableEq

/-- Which handler of lines 198-203 catches the raised exception. -/
inductive ErrKind where
  | fileNotFound
  | valueError
  | other
  deriving Repr, DecidableEq

/-- Outcome of the `try` body: success with the two pipeline outputs, or
an exception of a given kind raised at a given stage. -/
inductive TryOutcome where
  | success (reg : RatVal) (clf : ℤ)
  | raiseAt (stage : RaiseStage) (kind : ErrKind) (msg : String)
  deriving Repr, DecidableEq

/-- Pipeline-invocation effects that happened before the raise. -/
def stageTrace : RaiseStage → List MEffect
  | .atPrepare => [.prepareInput]
  | .atRegression => [.prepareInput, .predictRegression]
  | .atClassification => [.prepareInput, .predictRegression, .predictClassification]

/-- The handlers of lines 198-203: each converts its exception to a
user-facing `st.error` message — and emits nothing else (no logging). -/
def handlerEffect (kind : ErrKind) (msg : String) : MEffect :=
  match kind with
  | .fileNotFound => .stError ("Model file missing: " ++ msg)
  | .valueError => .stError ("Input error: " ++ msg)
  | .other => .stError ("An unexpected error occurred: " ++ msg)

/-- The predict flow of `main` after a nonempty player name was entered
(lines 129-203): the empty-roster guard (131-134), the player-id guard
(137-140), the team-data guard (143-146), the Predict button (153), and
the `try` body (154-196) with its handlers (198-203). On success the two
prediction lines are written with `st.write` (163-164), the subgraph is
extracted, the explanation generated and written (190-192), and the
subgraph visualized (196). -/
def mainFlow (playersEmpty playerFound teamsEmpty clicked : Bool)
    (outcome : TryOutcome) (season : String) : List MEffect :=
  if playersEmpty then
    [.stError ("No player data available for season " ++ season ++ ".")]
  else if !playerFound then
    [.stError "Player not found. Please check the name and try again."]
  else if teamsEmpty then
    [.stError "No team data available."]
  else if !clicked then []
  else
    match outcome with
    | .success reg clf =>
        [.prepareInput, .predictRegression, .predictClassification,
         .stWrite ("**Predicted Points:** " ++ format2 reg),
         .stWrite ("**Will Exceed Threshold:** " ++ (if clf = 1 then "Yes" else "No")),
         .extractSubgraph, .generateExplanation, .renderSubgraph]
    | .raiseAt stage kind msg =>
        stageTrace stage ++ [handlerEffect kind msg]

/-- The texts a user sees rendered for the flow's `st.write` calls. -/
def displayedTexts (es : List MEffect) : List String :=
  es.filterMap (fun e =>
    match e with
    | .stWrite m => some (stripBold m)
    | _ => none)

/-- `true` iff the effect list contains any `logError`. -/
def hasLog (es : List MEffect) : Bool :=
  es.any (fun e =>
    match e with
    | .logError _ => true
    | _ => false)

/-- `true` iff the effect list contains any `stError`. -/
def hasStError (es : List MEffect) : Bool :=
  es.any (fun e =>
    match e with
    | .stError _ => true
    | _ => false)

/-- A small concrete subgraph (a player and their team) used to
instantiate the universally quantified theorems. -/
def exampleGraph : Graph :=
  { nodes :=
      [("p1", { name := some "LeBron James", type := some "Player", label := none }),
       ("t1", { name := some "Lakers", type := some "Team", label := none })],
    edges := [("p1", "t1", "plays_for")] }

theorem lookupNd_cons (r0 : Nat) (n0 : String) (d0 : NodeData) (rest : Store)
    (r : Nat) (n : String) :
    lookupNd ((r0, n0, d0) :: rest) r n =
      if r0 = r ∧ n0 = n then some d0 else lookupNd rest r n := rfl

theorem lookupNd_append (s t : Store) (r : Nat) (n : String) :
    lookupNd (s ++ t) r n =
      match lookupNd s r n with
      | some d => some d
      | none => lookupNd t r n := by
  induction s with
  | nil => rfl
  | cons e rest ih =>
      obtain ⟨r0, n0, d0⟩ := e
      by_cases h : r0 = r ∧ n0 = n <;>
        simp [lookupNd_cons, h, ih]

theorem lookupNd_mapRef (r : Nat) (nodes : List (String × NodeData))
    (r' : Nat) (n : String) (h : r ≠ r') :
    lookupNd (nodes.map (fun p => (r, p.1, p.2))) r' n = none := by
  induction nodes with
  | nil => rfl
  | cons p rest ih =>
      obtain ⟨m, e⟩ := p
      simp only [List.map_cons, lookupNd_cons]
      rw [if_neg (by rintro ⟨rfl, -⟩; exact h rfl)]
      exact ih

theorem lookupNd_copyStore_ref0 (g : Graph) (n : String) :
    lookupNd (copyStore g) 0 n = lookupNd (initStore g) 0 n := by
  rw [copyStore, lookupNd_append]
  rw [lookupNd_mapRef 1 g.nodes 0 n (by decide)]
  cases lookupNd (initStore g) 0 n <;> rfl

theorem lookupNd_copyStore_ref1 (g : Graph) (n : String) :
    lookupNd (copyStore g) 1 n =
      lookupNd (g.nodes.map (fun p => (1, p.1, p.2))) 1 n := by
  rw [copyStore, lookupNd_append, initStore]
  rw [lookupNd_mapRef 0 g.nodes 1 n (by decide)]

theorem lookupNd_copyPart (n : String) (d : NodeData) :
    ∀ nodes : List (String × NodeData),
      (nodes.map Prod.fst).Nodup → (n, d) ∈ nodes →
      lookupNd (nodes.map (fun p => (1, p.1, p.2))) 1 n = some d := by
  intro nodes
  induction nodes with
  | nil => intro _ hmem; cases hmem
  | cons p rest ih =>
      obtain ⟨m, e⟩ := p
      intro hnd hmem
      rw [List.map_cons, lookupNd_cons]
      rcases List.mem_cons.mp hmem with hhead | htail
      · injection hhead with h1 h2
        subst h1
        subst h2
        simp
      · have hnd' : (m :: rest.map Prod.fst).Nodup := by
          rw [List.map_cons] at hnd
          exact hnd
        have hm : ¬(m = n) := by
          intro hEq
          refine (List.nodup_cons.mp hnd').1 ?_
          rw [hEq]
          exact List.mem_map.mpr ⟨(n, d), htail, rfl⟩
        rw [if_neg (by rintro ⟨-, h⟩; exact hm h)]
        exact ih (List.nodup_cons.mp hnd').2 htail

theorem setLabelAttr_cons (r0 : Nat) (n0 : String) (d0 : NodeData)
    (rest : Store) (m : String) :
    setLabelAttr ((r0, n0, d0) :: rest) m =
      (if r0 = 1 ∧ n0 = m then
        (r0, n0, { d0 with label := some (d0.name.getD n0) })
      else (r0, n0, d0)) :: setLabelAttr rest m := by
  simp only [setLabelAttr, List.map_cons]

theorem lookupNd_setLabelAttr_ref0 (s : Store) (m n : String) :
    lookupNd (setLabelAttr s m) 0 n = lookupNd s 0 n := by
  induction s with
  | nil => rfl
  | cons e rest ih =>
      obtain ⟨r0, n0, d0⟩ := e
      rw [setLabelAttr_cons]
      by_cases hc : r0 = 1 ∧ n0 = m
      · rw [if_pos hc, lookupNd_cons, lookupNd_cons]
        have hne : ¬(r0 = 0 ∧ n0 = n) := by
          rintro ⟨rfl, -⟩
          exact absurd hc.1 (by decide)
        rw [if_neg hne, if_neg hne, ih]
      · rw [if_neg hc, lookupNd_cons, lookupNd_cons]
        by_cases h2 : r0 = 0 ∧ n0 = n
        · rw [if_pos h2, if_pos h2]
        · rw [if_neg h2, if_neg h2, ih]

theorem lookupNd_setLabelAttr_ref1_ne (s : Store) (m n : String) (h : n ≠ m) :
    lookupNd (setLabelAttr s m) 1 n = lookupNd s 1 n := by
  induction s with
  | nil => rfl
  | cons e rest ih =>
      obtain ⟨r0, n0, d0⟩ := e
      rw [setLabelAttr_cons]
      by_cases hc : r0 = 1 ∧ n0 = m
      · rw [if_pos hc, lookupNd_cons, lookupNd_cons]
        have hne : ¬(r0 = 1 ∧ n0 = n) := by
          rintro ⟨-, rfl⟩
          exact h hc.2
        rw [if_neg hne, if_neg hne, ih]
      · rw [if_neg hc, lookupNd_cons, lookupNd_cons]
        by_cases h2 : r0 = 1 ∧ n0 = n
        · rw [if_pos h2, if_pos h2]
        · rw [if_neg h2, if_neg h2, ih]

theorem lookupNd_setLabelAttr_ref1_eq (s : Store) (n : String) :
    lookupNd (setLabelAttr s n) 1 n =
      (lookupNd s 1 n).map
        (fun d => { d with label := some (d.name.getD n) }) := by
  induction s with
  | nil => rfl
  | cons e rest ih =>
      obtain ⟨r0, n0, d0⟩ := e
      rw [setLabelAttr_cons]
      by_cases hc : r0 = 1 ∧ n0 = n
      · rw [if_pos hc, lookupNd_cons, lookupNd_cons, if_pos hc, if_pos hc]
        obtain ⟨-, rfl⟩ := hc
        rfl
      · rw [if_neg hc, lookupNd_cons, lookupNd_cons, if_neg hc, if_neg hc, ih]

theorem lookupNd_labelLoop_ref0 (ids : List String) :
    ∀ (s : Store) (n : String),
      lookupNd (labelLoop s ids) 0 n = lookupNd s 0 n := by
  induction ids with
  | nil => intro s n; rfl
  | cons m rest ih =>
      intro s n
      rw [labelLoop, ih (setLabelAttr s m) n, lookupNd_setLabelAttr_ref0]

theorem lookupNd_labelLoop_ref1_notMem (ids : List String) :
    ∀ (s : Store) (n : String), n ∉ ids →
      lookupNd (labelLoop s ids) 1 n = lookupNd s 1 n := by
  induction ids with
  | nil => intro s n _; rfl
  | cons m rest ih =>
      intro s n h
      have hm : n ≠ m := by
        intro hEq
        refine h ?_
        rw [hEq]
        exact List.mem_cons_self m rest
      rw [labelLoop, ih (setLabelAttr s m) n (fun hr => h (List.mem_cons_of_mem m hr)),
        lookupNd_setLabelAttr_ref1_ne s m n hm]

theorem lookupNd_labelLoop_ref1_mem (ids : List String) :
    ∀ (s : Store) (n : String), ids.Nodup → n ∈ ids →
      lookupNd (labelLoop s ids) 1 n =
        (lookupNd s 1 n).map
          (fun d => { d with label := some (d.name.getD n) }) := by
  induction ids with
  | nil => intro s n _ hmem; cases hmem
  | cons m rest ih =>
      intro s n hnd hmem
      by_cases he : n = m
      · subst he
        rw [labelLoop,
          lookupNd_labelLoop_ref1_notMem rest _ n (List.nodup_cons.mp hnd).1,
          lookupNd_setLabelAttr_ref1_eq]
      · rw [labelLoop,
          ih (setLabelAttr s m) n (List.nodup_cons.mp hnd).2
            ((List.mem_cons.mp hmem).resolve_left he),
          lookupNd_setLabelAttr_ref1_ne s m n he]

theorem lookupNd_finalStore_ref0 (g : Graph) (n : String) :
    lookupNd (finalStore g) 0 n = lookupNd (initStore g) 0 n := by
  rw [finalStore, lookupNd_labelLoop_ref0, lookupNd_copyStore_ref0]

theorem lookupNd_finalStore_ref1 (g : Graph) (n : String) (d : NodeData)
    (hnd : g.nodeIds.Nodup) (hmem : (n, d) ∈ g.nodes) :
    lookupNd (finalStore g) 1 n =
      some { d with label := some (d.name.getD n) } := by
  have hid : n ∈ g.nodeIds := List.mem_map.mpr ⟨(n, d), hmem, rfl⟩
  rw [finalStore,
    lookupNd_labelLoop_ref1_mem g.nodeIds (copyStore g) n hnd hid,
    lookupNd_copyStore_ref1,
    lookupNd_copyPart n d g.nodes hnd hmem]
  rfl

theorem applyStyle_label (t : Option String) (vn : VisNode) :
    (applyStyle t vn).label = vn.label := by
  unfold applyStyle
  split_ifs <;> rfl

theorem applyStyle_id (t : Option String) (vn : VisNode) :
    (applyStyle t vn).id = vn.id := by
  unfold applyStyle
  split_ifs <;> rfl

/-- C4: for every subgraph with zero nodes, `visualize_subgraph` emits
exactly the warning "No subgraph available to display." and returns: no
copying, styling, serialization or HTML embedding happens (the effect
list holds nothing but the warning), no temporary file exists at return,
and no PyVis node is produced. -/
theorem claim_C4_empty_subgraph_skips_rendering (g : Graph) (fail : FailPoint)
    (h : g.nodes.length = 0) :
    (visualize_subgraph g fail).effects =
      [Effect.warn "No subgraph available to display."] ∧
    (visualize_subgraph g fail).tempFiles = [] ∧
    (visualize_subgraph g fail).visNodes = [] := by
  refine ⟨?_, ?_, ?_⟩ <;> simp [visualize_subgraph, h]

/-- Witness for C4 at the concrete empty graph. -/
theorem claim_C4_witness :
    ({ nodes := [], edges := [] } : Graph).nodes.length = 0 ∧
    ((visualize_subgraph { nodes := [], edges := [] } FailPoint.noFail).effects =
      [Effect.warn "No subgraph available to display."] ∧
    (visualize_subgraph { nodes := [], edges := [] } FailPoint.noFail).tempFiles = [] ∧
    (visualize_subgraph { nodes := [], edges := [] } FailPoint.noFail).visNodes = []) :=
  ⟨rfl, claim_C4_empty_subgraph_skips_rendering { nodes := [], edges := [] } FailPoint.noFail rfl⟩

/-- C5: the visual encoding is exactly the fixed lookup from node type to
(color, shape) — Player→(blue, ellipse), Team→(green, box),
Game→(red, diamond), Opponent_Team→(purple, dot),
Home_Away→(orange, triangle), Performance→(yellow, star) — and a missing
or unrecognized type leaves the PyVis defaults untouched (and raises
nothing: `applyStyle` is total and returns the node unchanged). -/
theorem claim_C5_styling_table :
    (∀ vn : VisNode,
      applyStyle (some "Player") vn =
        { vn with color := some "blue", shape := some "ellipse" } ∧
      applyStyle (some "Team") vn =
        { vn with color := some "green", shape := some "box" } ∧
      applyStyle (some "Game") vn =
        { vn with color := some "red", shape := some "diamond" } ∧
      applyStyle (some "Opponent_Team") vn =
        { vn with color := some "purple", shape := some "dot" } ∧
      applyStyle (some "Home_Away") vn =
        { vn with color := some "orange", shape := some "triangle" } ∧
      applyStyle (some "Performance") vn =
        { vn with color := some "yellow", shape := some "star" }) ∧
    (∀ vn : VisNode, applyStyle none vn = vn) ∧
    (∀ (t : Option String) (vn : VisNode),
      t ∉ [some "Player", some "Team", some "Game", some "Opponent_Team",
           some "Home_Away", some "Performance"] →
      applyStyle t vn = vn) := by
  refine ⟨fun vn => ?_, fun vn => ?_, fun t vn h => ?_⟩
  · refine ⟨?_, ?_, ?_, ?_, ?_, ?_⟩ <;> simp [applyStyle]
  · simp [applyStyle]
  · simp only [List.mem_cons, List.not_mem_nil, or_false, not_or] at h
    obtain ⟨h1, h2, h3, h4, h5, h6⟩ := h
    simp [applyStyle, h1, h2, h3, h4, h5, h6]

/-- Witness for C5 at the unrecognized type "Coach". -/
theorem claim_C5_witness :
    (some "Coach" ∉ [some "Player", some "Team", some "Game",
      some "Opponent_Team", some "Home_Away", some "Performance"]) ∧
    applyStyle (some "Coach")
      { id := "x", label := none, color := none, shape := none } =
      { id := "x", label := none, color := none, shape := none } :=
  ⟨by decide, claim_C5_styling_table.2.2 (some "Coach")
    { id := "x", label := none, color := none, shape := none } (by decide)⟩

/-- C6: for every node of a non-empty subgraph (with distinct node ids, as
in any NetworkX graph), the rendered PyVis node carries as its label the
node's `name` attribute when present and the raw node identifier
otherwise. -/
theorem claim_C6_label_fallback (g : Graph) (fail : FailPoint)
    (hnd : g.nodeIds.Nodup) (hne : ¬g.nodes.length = 0)
    (n : String) (d : NodeData) (hmem : (n, d) ∈ g.nodes) :
    ∃ vn ∈ (visualize_subgraph g fail).visNodes,
      vn.id = n ∧ vn.label = some (d.name.getD n) := by
  have hvis : (visualize_subgraph g fail).visNodes = styledNodes g := by
    cases fail <;> simp [visualize_subgraph, hne]
  rw [hvis]
  have hid : n ∈ g.nodeIds := List.mem_map.mpr ⟨(n, d), hmem, rfl⟩
  have hlook := lookupNd_finalStore_ref1 g n d hnd hmem
  refine ⟨applyStyle ((lookupNd (finalStore g) 1 n).bind NodeData.type)
    { id := n, label := (lookupNd (finalStore g) 1 n).bind NodeData.label,
      color := none, shape := none }, ?_, ?_, ?_⟩
  · unfold styledNodes
    refine List.mem_map.mpr
      ⟨{ id := n, label := (lookupNd (finalStore g) 1 n).bind NodeData.label,
         color := none, shape := none }, ?_, rfl⟩
    unfold mkVisNodes
    exact List.mem_map.mpr ⟨n, hid, rfl⟩
  · rw [applyStyle_id]
  · rw [applyStyle_label, hlook]
    rfl

/-- Witness for C6 at the concrete two-node example graph. -/
theorem claim_C6_witness :
    exampleGraph.nodeIds.Nodup ∧
    ¬exampleGraph.nodes.length = 0 ∧
    ("p1", { name := some "LeBron James", type := some "Player", label := none })
      ∈ exampleGraph.nodes ∧
    ∃ vn ∈ (visualize_subgraph exampleGraph FailPoint.noFail).visNodes,
      vn.id = "p1" ∧
      vn.label = some ((some "LeBron James").getD "p1") :=
  ⟨by decide, by decide, by decide,
    claim_C6_label_fallback exampleGraph FailPoint.noFail (by decide) (by decide)
      "p1" { name := some "LeBron James", type := some "Player", label := none }
      (by decide)⟩

/-- C7: rendering mutates only the working copy — after
`visualize_subgraph` returns, every node-attribute lookup on the caller's
canonical subgraph (store reference 0) gives exactly what it gave before
the call, for every input graph and on every success/failure path. -/
theorem claim_C7_copy_isolation (g : Graph) (fail : FailPoint) (n : String) :
    lookupNd (visualize_subgraph g fail).store 0 n =
      lookupNd (initStore g) 0 n := by
  by_cases h : g.nodes.length = 0
  · simp [visualize_subgraph, h]
  · have hst : (visualize_subgraph g fail).store = finalStore g := by
      cases fail <;> simp [visualize_subgraph, h]
    rw [hst, lookupNd_finalStore_ref0]

/-- C1 counterexample: when reading the temporary file back raises (after
the file was written), `visualize_subgraph` returns with the temporary
file still on disk — the claim that every failure path removes the
intermediate artifact before the call returns is false on the code, which
has no `finally` cleanup. -/
theorem claim_C1_counterexample :
    (visualize_subgraph exampleGraph FailPoint.atRead).tempFiles = [tmpPath] ∧
    ¬(visualize_subgraph exampleGraph FailPoint.atRead).tempFiles = [] := by
  refine ⟨by decide, by decide⟩

/-- C1 amended: the temporary file is removed before the call returns on
the success path and on the failure path where `components.html` raises
(removal precedes rendering); but when `net.save_graph` or the read of
the temporary file raises after the file was created, the call returns
with the file still on disk. -/
theorem claim_C1_amended_cleanup (g : Graph) :
    (visualize_subgraph g FailPoint.noFail).tempFiles = [] ∧
    (visualize_subgraph g FailPoint.atRender).tempFiles = [] ∧
    (¬g.nodes.length = 0 →
      (visualize_subgraph g FailPoint.atSave).tempFiles = [tmpPath] ∧
      (visualize_subgraph g FailPoint.atRead).tempFiles = [tmpPath]) := by
  by_cases h : g.nodes.length = 0 <;>
    simp [visualize_subgraph, h]

/-- Witness for the amended C1 at the concrete example graph. -/
theorem claim_C1_witness :
    (visualize_subgraph exampleGraph FailPoint.noFail).tempFiles = [] ∧
    (visualize_subgraph exampleGraph FailPoint.atRender).tempFiles = [] ∧
    ¬exampleGraph.nodes.length = 0 ∧
    ((visualize_subgraph exampleGraph FailPoint.atSave).tempFiles = [tmpPath] ∧
     (visualize_subgraph exampleGraph FailPoint.atRead).tempFiles = [tmpPath]) :=
  ⟨(claim_C1_amended_cleanup exampleGraph).1,
   (claim_C1_amended_cleanup exampleGraph).2.1,
   by decide,
   (claim_C1_amended_cleanup exampleGraph).2.2 (by decide)⟩

/-- C2 counterexample: a ValueError raised by `prepare_input` and caught
by the handler at line 200 produces the user-facing message "Input error:
bad input" but the run contains no log entry at all — the claim that
every exception caught by main's handlers is also logged with full detail
is false on the code, whose handlers at lines 198-203 only call
`st.error`. -/
theorem claim_C2_counterexample :
    MEffect.stError "Input error: bad input" ∈
      mainFlow false true false true
        (TryOutcome.raiseAt RaiseStage.atPrepare ErrKind.valueError "bad input")
        "2023-24" ∧
    hasLog (mainFlow false true false true
        (TryOutcome.raiseAt RaiseStage.atPrepare ErrKind.valueError "bad input")
        "2023-24") = false := by
  refine ⟨by decide, by decide⟩

/-- C2 amended: exceptions caught inside `visualize_subgraph` are logged
with full diagnostic detail (a `logError` effect is always emitted before
the user-facing error); but the exceptions caught by the Predict handlers
in `main` (FileNotFoundError, ValueError, and the catch-all) are only
converted to a user-facing `st.error` message and are never logged. -/
theorem claim_C2_amended_logging (stage : RaiseStage) (kind : ErrKind)
    (msg season : String) (g : Graph) (hne : ¬g.nodes.length = 0) :
    hasLog (mainFlow false true false true
      (TryOutcome.raiseAt stage kind msg) season) = false ∧
    hasStError (mainFlow false true false true
      (TryOutcome.raiseAt stage kind msg) season) = true ∧
    Effect.logError "Error visualizing subgraph: save_graph failed" ∈
      (visualize_subgraph g FailPoint.atSave).effects ∧
    Effect.logError "Error visualizing subgraph: reading temp file failed" ∈
      (visualize_subgraph g FailPoint.atRead).effects ∧
    Effect.logError "Error visualizing subgraph: components failed" ∈
      (visualize_subgraph g FailPoint.atRender).effects := by
  refine ⟨?_, ?_, ?_, ?_, ?_⟩
  · cases stage <;> cases kind <;>
      simp [mainFlow, stageTrace, handlerEffect, hasLog]
  · cases stage <;> cases kind <;>
      simp [mainFlow, stageTrace, handlerEffect, hasStError]
  · simp [visualize_subgraph, hne]
  · simp [visualize_subgraph, hne]
  · simp [visualize_subgraph, hne]

/-- Witness for the amended C2 at a concrete failing run. -/
theorem claim_C2_witness :
    ¬exampleGraph.nodes.length = 0 ∧
    (hasLog (mainFlow false true false true
      (TryOutcome.raiseAt RaiseStage.atRegression ErrKind.other "boom")
      "2022-23") = false ∧
    hasStError (mainFlow false true false true
      (TryOutcome.raiseAt RaiseStage.atRegression ErrKind.other "boom")
      "2022-23") = true ∧
    Effect.logError "Error visualizing subgraph: save_graph failed" ∈
      (visualize_subgraph exampleGraph FailPoint.atSave).effects ∧
    Effect.logError "Error visualizing subgraph: reading temp file failed" ∈
      (visualize_subgraph exampleGraph FailPoint.atRead).effects ∧
    Effect.logError "Error visualizing subgraph: components failed" ∈
      (visualize_subgraph exampleGraph FailPoint.atRender).effects) :=
  ⟨by decide,
   claim_C2_amended_logging RaiseStage.atRegression ErrKind.other "boom"
     "2022-23" exampleGraph (by decide)⟩

/-- C3: for every well-formed extracted subgraph, every
`{source, target, relation}` triple of the ContextInfo `Relationships`
sequence references nodes of that same subgraph. -/
theorem claim_C3_referential_closure (p : String) (t : Option String)
    (o : String) (g : Graph) (hwf : g.wf) :
    ∀ r ∈ (mkContextInfo p t o g).relationships,
      r.source ∈ g.nodeIds ∧ r.target ∈ g.nodeIds := by
  intro r hr
  simp only [mkContextInfo, List.mem_map] at hr
  obtain ⟨e, he, rfl⟩ := hr
  exact hwf e he

/-- Witness for C3 at the concrete example graph and its single edge. -/
theorem claim_C3_witness :
    exampleGraph.wf ∧
    ({ source := "p1", target := "t1", relation := "plays_for" } : Relationship)
      ∈ (mkContextInfo "LeBron James" (some "LAL") "BOS" exampleGraph).relationships ∧
    ("p1" ∈ exampleGraph.nodeIds ∧ "t1" ∈ exampleGraph.nodeIds) :=
  ⟨by decide, by decide,
   claim_C3_referential_closure "LeBron James" (some "LAL") "BOS" exampleGraph
     (by decide)
     { source := "p1", target := "t1", relation := "plays_for" } (by decide)⟩

/-- C8: for every season whose roster table is empty, the flow emits
exactly the "No player data available" error and halts — in particular
`prepare_input` is never invoked and no later stage (prediction,
extraction, explanation, rendering) runs, whatever the button state or
the would-be try outcome. -/
theorem claim_C8_empty_roster_halts (playerFound teamsEmpty clicked : Bool)
    (outcome : TryOutcome) (season : String) :
    mainFlow true playerFound teamsEmpty clicked outcome season =
      [MEffect.stError ("No player data available for season " ++ season ++ ".")] ∧
    MEffect.prepareInput ∉ mainFlow true playerFound teamsEmpty clicked outcome season ∧
    MEffect.predictRegression ∉ mainFlow true playerFound teamsEmpty clicked outcome season ∧
    MEffect.predictClassification ∉ mainFlow true playerFound teamsEmpty clicked outcome season ∧
    MEffect.extractSubgraph ∉ mainFlow true playerFound teamsEmpty clicked outcome season ∧
    MEffect.generateExplanation ∉ mainFlow true playerFound teamsEmpty clicked outcome season ∧
    MEffect.renderSubgraph ∉ mainFlow true playerFound teamsEmpty clicked outcome season := by
  refine ⟨rfl, ?_, ?_, ?_, ?_, ?_, ?_⟩ <;> simp [mainFlow]

/-- C9: with regression output 28.4 and classification output 1, the
displayed prediction lines (the markdown-rendered `st.write` strings of
lines 163-164) include "Predicted Points: 28.40" and "Will Exceed
Threshold: Yes". -/
theorem claim_C9_scenario_display :
    "Predicted Points: 28.40" ∈
      displayedTexts (mainFlow false true false true
        (TryOutcome.success ⟨284, 10⟩ 1) "2023-24") ∧
    "Will Exceed Threshold: Yes" ∈
      displayedTexts (mainFlow false true false true
        (TryOutcome.success ⟨284, 10⟩ 1) "2023-24") := by
  refine ⟨by decide, by decide⟩

/-- C10: a falsy player-team lookup — `None` or the empty string — makes
the ContextInfo `Player_Team` field the sentinel "Unknown", while any
non-empty abbreviation passes through unchanged. -/
theorem claim_C10_falsy_team_sentinel (p o : String) (g : Graph) :
    (mkContextInfo p none o g).player_team = "Unknown" ∧
    (mkContextInfo p (some "") o g).player_team = "Unknown" ∧
    ∀ s : String, ¬s = "" → (mkContextInfo p (some s) o g).player_team = s := by
  refine ⟨rfl, by simp [mkContextInfo], fun s hs => by simp [mkContextInfo, hs]⟩

/-- Witness for C10 at the non-empty abbreviation "LAL". -/
theorem claim_C10_witness :
    ¬("LAL" : String) = "" ∧
    (mkContextInfo "LeBron James" (some "LAL") "BOS" exampleGraph).player_team = "LAL" :=
  ⟨by decide,
   (claim_C10_falsy_team_sentinel "LeBron James" "BOS" exampleGraph).2.2 "LAL"
     (by decide)⟩

end NbaApp
